import Mathlib

/-!
# VahaanXchange backend (`src/server.js`): embedding and checked properties

The server is a set of Express request handlers over a hosted store.  The
handlers are embedded as pure functions:

* JavaScript values are the type `JVal` (JSON values plus `undefined`);
  a number is the rational value of its JSON literal, rendered in decimal.
* The store query `supabase.from(table).select('*').eq('id', id).single()` is a
  function from table name and id to a `StoreOutcome`: the client either
  throws, or resolves to a pair `{ data, error }`.
* `process.env` and the locale of the runtime are the record `Runtime`.
* A response is the status (200 unless set), the `Content-Type` header when a
  handler sets it with `res.setHeader`, and the body given to `res.json` or
  `res.send`.
* The `fetch` of the crawler route is a function `Net` from the URL text to what
  `json()` yields.  The URL is built as the source builds it, from the protocol,
  the `Host` header and the decoded route parameters, without encoding.  How this
  process answers such a URL is `metaRouteGet`, the Express dispatch of the
  patterns of lines 79 and 208 on paths made of plain segments.

Property reads in the program are always guarded by the truthiness of the
receiver (`vehicle`, `vehicle.photos`, `metaData`), so `JVal.get` never has to
throw.  Objects are rendered through `Object.prototype` (`[object Object]`).
-/

namespace Vahaan

/-- Digits after the decimal point of `rem / den`, at most `fuel` of them. -/
def fracDigits (fuel rem den : Nat) : List Char :=
  match fuel with
  | 0 => []
  | f + 1 =>
    if rem = 0 then [] else Char.ofNat (48 + rem * 10 / den) :: fracDigits f (rem * 10 % den) den

/-- Number to text as a template literal does it, for a decimal value in the range
where no exponent is written: an integer in decimal, any other value as integer
part, point and fraction digits. -/
def numText (q : ℚ) : String :=
  if q.den = 1 then toString q.num
  else (if q.num < 0 then "-" else "") ++ toString (q.num.natAbs / q.den) ++ "."
    ++ String.mk (fracDigits 17 (q.num.natAbs % q.den) q.den)

/-- JavaScript values reachable from JSON data, plus `undefined`. -/
inductive JVal where
  | undefined : JVal
  | null : JVal
  | bool (b : Bool) : JVal
  | num (n : ℚ) : JVal
  | str (s : String) : JVal
  | arr (xs : List JVal) : JVal
  | obj (fields : List (String × JVal)) : JVal

namespace JVal

/-- ToBoolean: the test used by `||`, `&&`, `!` and `if`. -/
def truthy : JVal → Bool
  | undefined => false
  | null => false
  | bool b => b
  | num n => n != 0
  | str s => s != ""
  | arr _ => true
  | obj _ => true

/-- The test `typeof v === 'object'` (true of `null`, arrays and objects). -/
def isObjectType : JVal → Bool
  | null => true
  | arr _ => true
  | obj _ => true
  | _ => false

/-- Own property of an object literal; `undefined` when the key is missing. -/
def lookupField (key : String) : List (String × JVal) → JVal
  | [] => undefined
  | (k, v) :: rest => if k = key then v else lookupField key rest

/-- Property read `v[key]` for the non-index, non-builtin keys the program uses:
only objects carry such keys. -/
def get (v : JVal) (key : String) : JVal :=
  match v with
  | obj fields => lookupField key fields
  | _ => undefined

mutual
/-- ToString, as applied by a template literal `${v}`. -/
def toStr : JVal → String
  | undefined => "undefined"
  | null => "null"
  | bool b => if b then "true" else "false"
  | num n => numText n
  | str s => s
  | arr xs => joinStr xs
  | obj _ => "[object Object]"
/-- Rendering of one array element inside `Array.prototype.join`. -/
def elemStr : JVal → String
  | undefined => ""
  | null => ""
  | bool b => if b then "true" else "false"
  | num n => numText n
  | str s => s
  | arr xs => joinStr xs
  | obj _ => "[object Object]"
/-- The text of `Array.prototype.join(',')`. -/
def joinStr : List JVal → String
  | [] => ""
  | [x] => elemStr x
  | x :: y :: rest => elemStr x ++ "," ++ joinStr (y :: rest)
end

mutual
/-- The method call `v.toLocaleString()` on a value that is neither `null` nor
`undefined`; `fmt` is `Number.prototype.toLocaleString` of the runtime. -/
def localeStr (fmt : ℚ → String) : JVal → String
  | undefined => ""
  | null => ""
  | bool b => if b then "true" else "false"
  | num n => fmt n
  | str s => s
  | arr xs => joinLocale fmt xs
  | obj _ => "[object Object]"
/-- The text of `Array.prototype.toLocaleString`. -/
def joinLocale (fmt : ℚ → String) : List JVal → String
  | [] => ""
  | [x] => localeStr fmt x
  | x :: y :: rest => localeStr fmt x ++ "," ++ joinLocale fmt (y :: rest)
end

/-- Optional call `v?.toLocaleString()`: `undefined` on `null` and `undefined`. -/
def optLocaleString (fmt : ℚ → String) (v : JVal) : JVal :=
  match v with
  | undefined => undefined
  | null => undefined
  | w => str (localeStr fmt w)

/-- The operator `a || b`. -/
def orElse (a b : JVal) : JVal :=
  if a.truthy then a else b

mutual
/-- What `JSON.parse (JSON.stringify v)` gives back for a value other than
`undefined`: properties holding `undefined` are dropped, array slots holding
`undefined` become `null`. -/
def wire : JVal → JVal
  | undefined => undefined
  | null => null
  | bool b => bool b
  | num n => num n
  | str s => str s
  | arr xs => arr (wireElems xs)
  | obj fields => obj (wireFields fields)
/-- Serialised array elements. -/
def wireElems : List JVal → List JVal
  | [] => []
  | undefined :: rest => null :: wireElems rest
  | x :: rest => wire x :: wireElems rest
/-- Serialised object properties. -/
def wireFields : List (String × JVal) → List (String × JVal)
  | [] => []
  | (_, undefined) :: rest => wireFields rest
  | (k, v) :: rest => (k, wire v) :: wireFields rest
end

/-- A text value that is not the empty string. -/
def isNonEmptyString : JVal → Bool
  | str s => s != ""
  | _ => false

end JVal

open JVal

/-- Body of a response: the value given to `res.json`, or the text given to
`res.send`. -/
inductive Body where
  | json (v : JVal) : Body
  | text (s : String) : Body

/-- An HTTP response as the handlers build it. -/
structure Response where
  status : Nat
  contentType : Option String
  body : Body

/-- Outcome of awaiting the store query: the client throws, or it resolves to
`{ data, error }`. -/
inductive StoreOutcome where
  | throws : StoreOutcome
  | result (data error : JVal) : StoreOutcome

/-- The store: table name and id to the outcome of the point query. -/
abbrev Store := String → String → StoreOutcome

/-- Process environment and locale of the runtime. -/
structure Runtime where
  FRONTEND_URL : Option String
  NODE_ENV : Option String
  numToLocale : ℚ → String

/-- The expression `process.env.X || dflt`. -/
def envOr (v : Option String) (dflt : String) : String :=
  match v with
  | some s => if s = "" then dflt else s
  | none => dflt

/-- Line 59 and line 90: `type === 'car' ? 'car_seller_listings' : 'bike_seller_listings'`. -/
def tableName (type : String) : String :=
  if type = "car" then "car_seller_listings" else "bike_seller_listings"

/-- The JSON payload `{ error: msg }`. -/
def errorBody (msg : String) : Body :=
  Body.json (obj [("error", str msg)])

/-- Handler of `GET /api/vehicles/:type/:id` (lines 48-76). -/
def vehiclesHandler (store : Store) (type id : String) : Response :=
  match store (tableName type) id with
  | StoreOutcome.throws => ⟨500, none, errorBody "Internal server error"⟩
  | StoreOutcome.result vehicle error =>
    if error.truthy || !vehicle.truthy then
      ⟨404, none, errorBody "Vehicle not found"⟩
    else
      ⟨200, none, Body.json (obj [("vehicle", vehicle)])⟩

/-- The list `categoryOrder` of line 105. -/
def categoryOrder : List String :=
  ["exterior", "interior", "engine", "dashboard", "other"]

/-- The placeholder of line 114. -/
def placeholderImage : String :=
  "https://www.vahaanxchange.com/resource-uploads/a47ef4ec-4126-4237-8391-444437db8ec1.png"

/-- The `for` loop of lines 107-112: the first entry of the first category that
is a non-empty array, or `none` when the loop runs to its end. -/
def firstPhoto (photos : JVal) : List String → Option JVal
  | [] => none
  | categoryName :: rest =>
    match photos.get categoryName with
    | arr (x :: _) => some x
    | _ => firstPhoto photos rest

/-- The closure `getMainImage` of lines 103-115. -/
def getMainImage (vehicle : JVal) : JVal :=
  let photos := vehicle.get "photos"
  if photos.truthy && photos.isObjectType then
    match firstPhoto photos categoryOrder with
    | some x => x
    | none => str placeholderImage
  else
    str placeholderImage

/-- The template of line 118. -/
def title (vehicle : JVal) : String :=
  (vehicle.get "year").toStr ++ " " ++ (vehicle.get "brand").toStr ++ " "
    ++ (vehicle.get "model").toStr ++ " "
    ++ (orElse (vehicle.get "variant") (str "")).toStr ++ " - VahaanXchange"

/-- The template of line 119. -/
def description (rt : Runtime) (vehicle : JVal) : String :=
  (vehicle.get "fuel_type").toStr ++ " | "
    ++ (orElse (optLocaleString rt.numToLocale (vehicle.get "kilometers_driven")) (str "Low")).toStr
    ++ " km | ₹"
    ++ (orElse (optLocaleString rt.numToLocale (vehicle.get "sell_price")) (str "Best Price")).toStr
    ++ " | "
    ++ (orElse (vehicle.get "seller_location_city") (str "Available")).toStr

/-- The template of line 125. -/
def canonicalUrl (rt : Runtime) (type id : String) : String :=
  envOr rt.FRONTEND_URL "https://vahaanxchange.vercel.app" ++ "/used-" ++ type
    ++ "-details/" ++ id

/-- The object `metaData` of lines 121-127. -/
def metaData (rt : Runtime) (type id : String) (vehicle : JVal) : JVal :=
  obj [("title", str (title vehicle)),
       ("description", str (description rt vehicle)),
       ("image", getMainImage vehicle),
       ("url", str (canonicalUrl rt type id)),
       ("type", str "website")]

/-- Handler of `GET /api/meta/:type/:id` (lines 79-134). -/
def metaHandler (rt : Runtime) (store : Store) (type id : String) : Response :=
  match store (tableName type) id with
  | StoreOutcome.throws => ⟨500, none, errorBody "Internal server error"⟩
  | StoreOutcome.result vehicle error =>
    if error.truthy || !vehicle.truthy then
      ⟨404, none, errorBody "Vehicle not found"⟩
    else
      ⟨200, none, Body.json (metaData rt type id vehicle)⟩

/-- JSON decoding of a fetched response by `metaResponse.json()` (line 144): a
payload sent with `res.json` comes back as serialised; a body sent as text by
this program is not JSON and makes the call throw (`none`). -/
def fetchedJson (resp : Response) : Option JVal :=
  match resp.body with
  | Body.json undefined => none
  | Body.json v => some (wire v)
  | Body.text _ => none

/-- The tag of line 163. -/
def ogTitleTag (t : String) : String :=
  "<meta property=\"og:title\" content=\"" ++ t ++ "\">"

/-- The tag of line 181. -/
def refreshTag (u : String) : String :=
  "<meta http-equiv=\"refresh\" content=\"0; url=" ++ u ++ "\">"

/-- Lines 151-162 of the page template, up to the `og:title` tag. -/
def htmlHead (t d u : String) : String :=
  "\n<!DOCTYPE html>\n<html lang=\"en\">\n<head>\n"
    ++ "  <meta charset=\"UTF-8\">\n"
    ++ "  <meta name=\"viewport\" content=\"width=device-width, initial-scale=1.0\">\n"
    ++ "  <title>" ++ t ++ "</title>\n"
    ++ "  <meta name=\"description\" content=\"" ++ d ++ "\">\n"
    ++ "  \n"
    ++ "  <!-- Open Graph / Facebook -->\n"
    ++ "  <meta property=\"og:type\" content=\"website\">\n"
    ++ "  <meta property=\"og:url\" content=\"" ++ u ++ "\">\n"
    ++ "  "

/-- Lines 163-181 of the page template, between the `og:title` tag and the
refresh tag. -/
def htmlMiddle (t d u i : String) : String :=
  "\n"
    ++ "  <meta property=\"og:description\" content=\"" ++ d ++ "\">\n"
    ++ "  <meta property=\"og:image\" content=\"" ++ i ++ "\">\n"
    ++ "  <meta property=\"og:image:width\" content=\"1200\">\n"
    ++ "  <meta property=\"og:image:height\" content=\"630\">\n"
    ++ "  \n"
    ++ "  <!-- Twitter -->\n"
    ++ "  <meta property=\"twitter:card\" content=\"summary_large_image\">\n"
    ++ "  <meta property=\"twitter:url\" content=\"" ++ u ++ "\">\n"
    ++ "  <meta property=\"twitter:title\" content=\"" ++ t ++ "\">\n"
    ++ "  <meta property=\"twitter:description\" content=\"" ++ d ++ "\">\n"
    ++ "  <meta property=\"twitter:image\" content=\"" ++ i ++ "\">\n"
    ++ "  \n"
    ++ "  <!-- WhatsApp -->\n"
    ++ "  <meta property=\"og:site_name\" content=\"VahaanXchange\">\n"
    ++ "  <meta property=\"og:locale\" content=\"en_IN\">\n"
    ++ "  \n"
    ++ "  <!-- Redirect to frontend -->\n"
    ++ "  "

/-- Lines 181-197 of the page template, after the refresh tag. -/
def htmlTail (t d u : String) : String :=
  "\n"
    ++ "  <script>\n"
    ++ "    // Immediate redirect for users\n"
    ++ "    if (typeof window !== \x27undefined\x27) \x7b\n"
    ++ "      window.location.href = \x27" ++ u ++ "\x27;\n"
    ++ "    \x7d\n"
    ++ "  </script>\n"
    ++ "</head>\n"
    ++ "<body>\n"
    ++ "  <div style=\"text-align: center; padding: 50px; font-family: Arial, sans-serif;\">\n"
    ++ "    <h1>" ++ t ++ "</h1>\n"
    ++ "    <p>" ++ d ++ "</p>\n"
    ++ "    <p>Redirecting to VahaanXchange...</p>\n"
    ++ "    <a href=\"" ++ u ++ "\">Click here if you are not redirected automatically</a>\n"
    ++ "  </div>\n"
    ++ "</body>\n"
    ++ "</html>"

/-- The template literal `html` of lines 151-197. -/
def renderHtml (metaData : JVal) : String :=
  let t := (metaData.get "title").toStr
  let d := (metaData.get "description").toStr
  let u := (metaData.get "url").toStr
  let i := (metaData.get "image").toStr
  htmlHead t d u ++ ogTitleTag t ++ htmlMiddle t d u i ++ refreshTag u ++ htmlTail t d u

/-- What `await (await fetch (url)).json ()` yields for a URL text: `none` when
`fetch` or `json()` throws. -/
abbrev Net := String → Option JVal

/-- The URL of lines 142-143: `req.protocol + '://' + req.get('host')`, then
`/api/meta/${type}/${id}` with the decoded route parameters as they are. -/
def metaUrl (protocol host type id : String) : String :=
  protocol ++ "://" ++ host ++ "/api/meta/" ++ type ++ "/" ++ id

/-- Body of the handler of `GET /ssr/:type/:id` from line 146 on; the argument is
what lines 143-144 produced, `none` when `fetch` or `json()` threw. -/
def ssrRender (fetched : Option JVal) : Response :=
  match fetched with
  | none => ⟨500, none, Body.text "Internal Server Error"⟩
  | some metaData =>
    if !metaData.truthy || (metaData.get "error").truthy then
      ⟨404, none, Body.text "Vehicle not found"⟩
    else
      ⟨200, some "text/html", Body.text (renderHtml metaData)⟩

/-- Handler of `GET /ssr/:type/:id` (lines 137-205), for a request with the given
protocol and `Host` header. -/
def ssrHandler (net : Net) (protocol host type id : String) : Response :=
  ssrRender (net (metaUrl protocol host type id))

/-- The catch-all route of lines 208-218. -/
def catchAll : Response :=
  ⟨404, none, Body.json (obj [("error", str "Route not found"),
    ("availableRoutes", arr [str "/health", str "/api/vehicles/:type/:id",
      str "/api/meta/:type/:id", str "/ssr/:type/:id"])])⟩

/-- Removal of a leading text. -/
def stripLeading : List Char → List Char → Option (List Char)
  | [], rest => some rest
  | _ :: _, [] => none
  | p :: ps, c :: cs => if p = c then stripLeading ps cs else none

/-- The path of a request target: what stands before the first `?` or `#`. -/
def pathPart (target : List Char) : List Char :=
  target.takeWhile (fun c => c != '?' && c != '#')

/-- The segments of a path, cut at each `/`. -/
def splitSlash : List Char → List (List Char)
  | [] => [[]]
  | c :: cs =>
    if c = '/' then [] :: splitSlash cs
    else
      match splitSlash cs with
      | [] => [[c]]
      | seg :: segs => (c :: seg) :: segs

/-- A character that URL parsing and parameter decoding leave as it is and that
no route pattern treats specially. -/
def plainChar (c : Char) : Bool :=
  c.isAlphanum || c == '-' || c == '_'

/-- Express dispatch of `GET /api/meta/` followed by `rest`, when the path is made
of plain segments: the pattern `/api/meta/:type/:id` of line 79 takes two
non-empty segments, with or without a closing `/`, and the query is ignored; any
other path falls to the catch-all of line 208.  `none` when a segment holds a
character that is not plain (not modelled). -/
def metaRouteGet (rt : Runtime) (store : Store) (rest : String) : Option Response :=
  let segs := splitSlash (pathPart rest.data)
  if segs.all (fun seg => seg.all plainChar) then
    match segs with
    | [type, id] =>
      if type.isEmpty || id.isEmpty then some catchAll
      else some (metaHandler rt store (String.mk type) (String.mk id))
    | [type, id, []] =>
      if type.isEmpty || id.isEmpty then some catchAll
      else some (metaHandler rt store (String.mk type) (String.mk id))
    | _ => some catchAll
  else none

/-- A network in which the URLs under `base` reach this process; every other
request fails. -/
def loopbackNet (rt : Runtime) (store : Store) (base : String) : Net := fun url =>
  match stripLeading (base ++ "/api/meta/").data url.data with
  | some rest =>
    match metaRouteGet rt store (String.mk rest) with
    | some resp => fetchedJson resp
    | none => none
  | none => none

/-- The error-handling middleware of lines 221-227. -/
def errorMiddleware (rt : Runtime) (error : JVal) : Response :=
  ⟨500, none, Body.json (obj [("error", str "Internal server error"),
    ("message", if rt.NODE_ENV = some "development" then error.get "message"
                else str "Something went wrong")])⟩

/-- The text `tag` occurs in the text `doc`. -/
def containsStr (doc tag : String) : Prop :=
  tag.data <:+: doc.data

/-- Grouping of a reversed digit string in threes. -/
def groupDigits : List Char → List Char
  | a :: b :: c :: d :: rest => a :: b :: c :: ',' :: groupDigits (d :: rest)
  | ds => ds

/-- The fraction part of the `en-US` rendering, from the thousandths `f < 1000`:
trailing zeros are not written. -/
def fracText (f : Nat) : String :=
  if f = 0 then ""
  else if f % 100 = 0 then String.mk ['.', Char.ofNat (48 + f / 100)]
  else if f % 10 = 0 then String.mk ['.', Char.ofNat (48 + f / 100), Char.ofNat (48 + f / 10 % 10)]
  else String.mk ['.', Char.ofNat (48 + f / 100), Char.ofNat (48 + f / 10 % 10),
    Char.ofNat (48 + f % 10)]

/-- An instance of `Number.prototype.toLocaleString`: the `en-US` rendering, the
value rounded to three fraction digits, the integer digits grouped in threes. -/
def groupEnUS (q : ℚ) : String :=
  let r := (2 * q.num.natAbs * 1000 + q.den) / (2 * q.den)
  (if q.num < 0 then "-" else "")
    ++ String.mk (groupDigits (Nat.toDigits 10 (r / 1000)).reverse).reverse
    ++ fracText (r % 1000)

/-- A runtime with no environment variable set and the `en-US` locale. -/
def enUS : Runtime :=
  ⟨none, none, groupEnUS⟩

/-- The description slot as the specification words it: the grouped rendering of a
number that is present, the default text otherwise. -/
def specGrouped (fmt : ℚ → String) (dflt : String) : JVal → String
  | num n => fmt n
  | _ => dflt

/-- The city slot as the specification words it: the city when there is one, the
text `Available` otherwise. -/
def specCity : JVal → String
  | str s => if s = "" then "Available" else s
  | _ => "Available"

/-- A field that is a number or absent (missing or `null`). -/
def isOptNumber : JVal → Bool
  | num _ => true
  | undefined => true
  | null => true
  | _ => false

/-- A field that is a text or absent (missing or `null`). -/
def isOptString : JVal → Bool
  | str _ => true
  | undefined => true
  | null => true
  | _ => false

/-! ### Sample data -/

/-- A car listing whose only non-empty photo list is `dashboard`; it has no
`variant`. -/
def dashboardOnlyCar : JVal :=
  obj [("id", str "1"), ("year", num 2020), ("brand", str "Honda"), ("model", str "City"),
       ("fuel_type", str "Petrol"), ("kilometers_driven", num 0), ("sell_price", num 0),
       ("seller_location_city", str "Pune"),
       ("photos", obj [("exterior", arr []), ("dashboard", arr [str "https://cdn.example/dash-1.jpg",
          str "https://cdn.example/dash-2.jpg"])])]

/-- A bike listing with a variant, a price of 85000.5 and no photo data at all. -/
def plainBike : JVal :=
  obj [("id", str "7"), ("year", num 2019), ("brand", str "Yamaha"), ("model", str "FZ"),
       ("variant", str "V3"), ("fuel_type", str "Petrol"), ("kilometers_driven", num 12500),
       ("sell_price", num (mkRat 170001 2))]

/-- A car listing whose id holds a `/`. -/
def slashCar : JVal :=
  obj [("id", str "1/2"), ("year", num 2021), ("brand", str "Tata"), ("model", str "Nexon"),
       ("variant", str "XZ"), ("fuel_type", str "Diesel")]

/-- A car listing whose `exterior` list starts with the empty text. -/
def emptyEntryCar : JVal :=
  obj [("id", str "3"), ("year", num 2018), ("brand", str "Maruti"), ("model", str "Swift"),
       ("photos", obj [("exterior", arr [str ""]), ("interior", arr [str "https://cdn.example/in.jpg"])])]

/-- The error a point query reports when no row matches. -/
def noRowError : JVal :=
  obj [("code", str "PGRST116"), ("message", str "JSON object requested, multiple (or no) rows returned")]

/-- A store holding car `1`, car `3`, car `1/2` and bike `7`. -/
def sampleStore : Store := fun table id =>
  if table = "car_seller_listings" ∧ id = "1" then StoreOutcome.result dashboardOnlyCar null
  else if table = "car_seller_listings" ∧ id = "3" then StoreOutcome.result emptyEntryCar null
  else if table = "car_seller_listings" ∧ id = "1/2" then StoreOutcome.result slashCar null
  else if table = "bike_seller_listings" ∧ id = "7" then StoreOutcome.result plainBike null
  else StoreOutcome.result null noRowError

/-- A store whose client throws on every query. -/
def throwingStore : Store := fun _ _ => StoreOutcome.throws

end Vahaan

namespace Vahaan

open JVal

/-! ### Image selection -/

theorem firstPhoto_hit (photos : JVal) (c : String) (rest : List String) (x : JVal)
    (xs : List JVal) (h : photos.get c = arr (x :: xs)) :
    firstPhoto photos (c :: rest) = some x := by
  simp [firstPhoto, h]

theorem firstPhoto_skip (photos : JVal) (c : String) (rest : List String)
    (h : ∀ y ys, photos.get c ≠ arr (y :: ys)) :
    firstPhoto photos (c :: rest) = firstPhoto photos rest := by
  rw [firstPhoto]
  split
  · next x xs hx => exact absurd hx (h x xs)
  · rfl

theorem firstPhoto_append (photos : JVal) (pre rest : List String)
    (h : ∀ c ∈ pre, ∀ y ys, photos.get c ≠ arr (y :: ys)) :
    firstPhoto photos (pre ++ rest) = firstPhoto photos rest := by
  induction pre with
  | nil => rfl
  | cons c pre ih =>
    rw [List.cons_append, firstPhoto_skip photos c _ (h c (List.mem_cons_self _ _))]
    exact ih (fun c' hc' => h c' (List.mem_cons_of_mem _ hc'))

theorem firstPhoto_none (photos : JVal) (cs : List String)
    (h : ∀ c ∈ cs, ∀ y ys, photos.get c ≠ arr (y :: ys)) :
    firstPhoto photos cs = none := by
  have := firstPhoto_append photos cs [] h
  simpa [firstPhoto] using this

theorem firstPhoto_some_split (photos : JVal) (cs : List String) (x : JVal)
    (h : firstPhoto photos cs = some x) :
    ∃ pre c post xs, cs = pre ++ c :: post ∧
      (∀ c' ∈ pre, ∀ y ys, photos.get c' ≠ arr (y :: ys)) ∧ photos.get c = arr (x :: xs) := by
  induction cs with
  | nil => simp [firstPhoto] at h
  | cons c cs ih =>
    by_cases hc : ∃ y ys, photos.get c = arr (y :: ys)
    · obtain ⟨y, ys, hy⟩ := hc
      rw [firstPhoto_hit _ _ _ _ _ hy] at h
      cases h
      exact ⟨[], c, cs, ys, rfl, (by intro c' hc'; cases hc'), hy⟩
    · have hskip : ∀ y ys, photos.get c ≠ arr (y :: ys) := fun y ys hy => hc ⟨y, ys, hy⟩
      rw [firstPhoto_skip _ _ _ hskip] at h
      obtain ⟨pre, c2, post, xs, hsplit, hpre, hx⟩ := ih h
      refine ⟨c :: pre, c2, post, xs, by rw [hsplit]; rfl, ?_, hx⟩
      intro c' hc'
      rcases List.mem_cons.mp hc' with rfl | hmem
      · exact hskip
      · exact hpre c' hmem

theorem get_arr_usable (photos : JVal) (c : String) (x : JVal) (xs : List JVal)
    (h : photos.get c = arr (x :: xs)) :
    photos.truthy = true ∧ photos.isObjectType = true := by
  cases photos <;> simp [JVal.get, truthy, isObjectType] at h ⊢

theorem metaData_image (rt : Runtime) (type id : String) (vehicle : JVal) :
    (metaData rt type id vehicle).get "image" = getMainImage vehicle := by
  simp [metaData, JVal.get, lookupField]

theorem getMainImage_of_first (vehicle : JVal) (pre post : List String) (c : String)
    (x : JVal) (xs : List JVal) (hsplit : categoryOrder = pre ++ c :: post)
    (hpre : ∀ c' ∈ pre, ∀ y ys, (vehicle.get "photos").get c' ≠ arr (y :: ys))
    (hc : (vehicle.get "photos").get c = arr (x :: xs)) :
    getMainImage vehicle = x := by
  obtain ⟨h1, h2⟩ := get_arr_usable _ _ _ _ hc
  have hf : firstPhoto (vehicle.get "photos") categoryOrder = some x := by
    rw [hsplit, firstPhoto_append _ _ _ hpre]
    exact firstPhoto_hit _ _ _ _ _ hc
  simp [getMainImage, h1, h2, hf]

theorem getMainImage_placeholder (vehicle : JVal)
    (h : ¬ ((vehicle.get "photos").truthy = true ∧ (vehicle.get "photos").isObjectType = true) ∨
      ∀ c ∈ categoryOrder, ∀ y ys, (vehicle.get "photos").get c ≠ arr (y :: ys)) :
    getMainImage vehicle = str placeholderImage := by
  unfold getMainImage
  rcases h with h | h
  · simp only [Bool.and_eq_true]
    rw [if_neg h]
  · simp only [firstPhoto_none _ _ h]
    split <;> rfl

/-- C1: the descriptor's image is the first entry of the first category, in the
order exterior, interior, engine, dashboard, other, that holds a non-empty array;
it is the placeholder when the photos are absent or not an object, or when no
listed category holds a non-empty array; a record whose only non-empty list is
`dashboard` gets that list's first entry. -/
theorem metaData_image_selection (rt : Runtime) (type id : String) (vehicle : JVal) :
    (∀ (pre post : List String) (c : String) (x : JVal) (xs : List JVal),
        categoryOrder = pre ++ c :: post →
        (∀ c' ∈ pre, ∀ y ys, (vehicle.get "photos").get c' ≠ arr (y :: ys)) →
        (vehicle.get "photos").get c = arr (x :: xs) →
        (metaData rt type id vehicle).get "image" = x) ∧
    ((¬ ((vehicle.get "photos").truthy = true ∧ (vehicle.get "photos").isObjectType = true) ∨
        ∀ c ∈ categoryOrder, ∀ y ys, (vehicle.get "photos").get c ≠ arr (y :: ys)) →
        (metaData rt type id vehicle).get "image" = str placeholderImage) ∧
    (∀ (x : JVal) (xs : List JVal),
        (vehicle.get "photos").get "dashboard" = arr (x :: xs) →
        (∀ c ∈ ["exterior", "interior", "engine"], ∀ y ys,
          (vehicle.get "photos").get c ≠ arr (y :: ys)) →
        (metaData rt type id vehicle).get "image" = x) := by
  rw [metaData_image]
  refine ⟨?_, getMainImage_placeholder vehicle, ?_⟩
  · intro pre post c x xs hsplit hpre hc
    exact getMainImage_of_first vehicle pre post c x xs hsplit hpre hc
  · intro x xs hd hpre
    exact getMainImage_of_first vehicle ["exterior", "interior", "engine"] ["other"]
      "dashboard" x xs rfl hpre hd

/-- Witness for C1: the dashboard-only car gets its first dashboard photo, the
bike without photo data gets the placeholder. -/
theorem metaData_image_selection_witness :
    (metaData enUS "car" "1" dashboardOnlyCar).get "image" = str "https://cdn.example/dash-1.jpg" ∧
    (metaData enUS "bike" "7" plainBike).get "image" = str placeholderImage :=
  ⟨(metaData_image_selection enUS "car" "1" dashboardOnlyCar).2.2 _ _ rfl (by
      intro c hc y ys
      simp only [List.mem_cons, List.mem_singleton, List.not_mem_nil, or_false] at hc
      rcases hc with rfl | rfl | rfl <;> simp [dashboardOnlyCar, JVal.get, lookupField]),
   (metaData_image_selection enUS "bike" "7" plainBike).2.1 (Or.inl (by
      simp [plainBike, JVal.get, lookupField, truthy]))⟩


/-! ### Lookup -/

theorem tableName_of_ne_car (type : String) (h : type ≠ "car") :
    tableName type = "bike_seller_listings" := by
  simp [tableName, h]

/-- C2, as stated, fails: the type `truck` is looked up in the bike table, and
both routes answer 200 with the bike record `7`. -/
theorem unsupported_type_returns_bike_record :
    "truck" ≠ "car" ∧ "truck" ≠ "bike" ∧
    vehiclesHandler sampleStore "truck" "7"
      = ⟨200, none, Body.json (obj [("vehicle", plainBike)])⟩ ∧
    (metaHandler enUS sampleStore "truck" "7").status = 200 := by
  refine ⟨by decide, by decide, ?_, ?_⟩
  · simp [vehiclesHandler, tableName, sampleStore, truthy, plainBike]
  · simp [metaHandler, tableName, sampleStore, truthy, plainBike]

/-- C2, amended: a type other than `car` is looked up in the bike table.  The
answers of both routes are determined by the bike table's answer for the id (so
no record of the car table is returned); they are 404 when the bike table has no
row for the id or reports an error; and when the bike table returns a record
without error, the vehicles route answers 200 with that record and the meta route
answers 200 with its descriptor, also for an unsupported type. -/
theorem non_car_type_uses_bike_table (rt : Runtime) (store : Store) (type id : String)
    (h : type ≠ "car") :
    tableName type = "bike_seller_listings" ∧
    vehiclesHandler store type id = vehiclesHandler store "bike" id ∧
    (metaHandler rt store type id).status = (metaHandler rt store "bike" id).status ∧
    (∀ store2 : Store, store2 "bike_seller_listings" id = store "bike_seller_listings" id →
        vehiclesHandler store2 type id = vehiclesHandler store type id ∧
        metaHandler rt store2 type id = metaHandler rt store type id) ∧
    (∀ data error, store "bike_seller_listings" id = StoreOutcome.result data error →
        (error.truthy = true ∨ data.truthy = false) →
        vehiclesHandler store type id
          = ⟨404, none, Body.json (obj [("error", str "Vehicle not found")])⟩ ∧
        metaHandler rt store type id
          = ⟨404, none, Body.json (obj [("error", str "Vehicle not found")])⟩) ∧
    (∀ data error, store "bike_seller_listings" id = StoreOutcome.result data error →
        error.truthy = false → data.truthy = true →
        vehiclesHandler store type id = ⟨200, none, Body.json (obj [("vehicle", data)])⟩ ∧
        metaHandler rt store type id = ⟨200, none, Body.json (metaData rt type id data)⟩) := by
  have ht := tableName_of_ne_car type h
  have hb : tableName "bike" = "bike_seller_listings" := by decide
  refine ⟨ht, ?_, ?_, ?_, ?_, ?_⟩
  · simp only [vehiclesHandler, ht, hb]
  · simp only [metaHandler, ht, hb]
    cases store "bike_seller_listings" id with
    | throws => rfl
    | result data error => by_cases hc : (error.truthy || !data.truthy) = true <;> simp [hc]
  · intro store2 h2
    simp only [vehiclesHandler, metaHandler, ht, h2, and_self]
  · intro data error hs hmiss
    have hc : (error.truthy || !data.truthy) = true := by
      rcases hmiss with h1 | h1 <;> simp [h1]
    simp [vehiclesHandler, metaHandler, ht, hs, hc, errorBody]
  · intro data error hs he hd
    simp [vehiclesHandler, metaHandler, ht, hs, he, hd]

/-- Witness for the amended C2: the type `truck` with an id the bike table does
not hold is answered 404 by both routes; with the id of bike `7` both routes
answer 200, with the bike record and with its descriptor. -/
theorem non_car_type_uses_bike_table_witness :
    "truck" ≠ "car" ∧
    (vehiclesHandler sampleStore "truck" "1"
        = ⟨404, none, Body.json (obj [("error", str "Vehicle not found")])⟩ ∧
      metaHandler enUS sampleStore "truck" "1"
        = ⟨404, none, Body.json (obj [("error", str "Vehicle not found")])⟩) ∧
    (vehiclesHandler sampleStore "truck" "7"
        = ⟨200, none, Body.json (obj [("vehicle", plainBike)])⟩ ∧
      metaHandler enUS sampleStore "truck" "7"
        = ⟨200, none, Body.json (metaData enUS "truck" "7" plainBike)⟩) :=
  ⟨by decide,
   (non_car_type_uses_bike_table enUS sampleStore "truck" "1" (by decide)).2.2.2.2.1
      null noRowError (by simp [sampleStore]) (Or.inr rfl),
   (non_car_type_uses_bike_table enUS sampleStore "truck" "7" (by decide)).2.2.2.2.2
      plainBike null (by simp [sampleStore]) rfl rfl⟩

/-- C4: when the store reports an error or returns no row, both routes answer 404
with the payload `{ error: 'Vehicle not found' }`, which holds neither a vehicle
nor a descriptor; when the store returns a record without error, the vehicles
route answers 200 with exactly that record under the key `vehicle`. -/
theorem lookup_miss_is_404 (rt : Runtime) (store : Store) (type id : String)
    (data error : JVal) (hs : store (tableName type) id = StoreOutcome.result data error) :
    ((error.truthy = true ∨ data.truthy = false) →
        vehiclesHandler store type id
          = ⟨404, none, Body.json (obj [("error", str "Vehicle not found")])⟩ ∧
        metaHandler rt store type id
          = ⟨404, none, Body.json (obj [("error", str "Vehicle not found")])⟩) ∧
    ((error.truthy = false ∧ data.truthy = true) →
        vehiclesHandler store type id = ⟨200, none, Body.json (obj [("vehicle", data)])⟩) := by
  constructor
  · intro hmiss
    have hc : (error.truthy || !data.truthy) = true := by
      rcases hmiss with h1 | h1 <;> simp [h1]
    simp [vehiclesHandler, metaHandler, hs, hc, errorBody]
  · rintro ⟨he, hd⟩
    simp [vehiclesHandler, hs, he, hd]

/-- Witness for C4: car `2` is not in the store and both routes answer 404; car `1`
is, and the vehicles route answers 200 with it. -/
theorem lookup_miss_is_404_witness :
    (vehiclesHandler sampleStore "car" "2"
        = ⟨404, none, Body.json (obj [("error", str "Vehicle not found")])⟩ ∧
     metaHandler enUS sampleStore "car" "2"
        = ⟨404, none, Body.json (obj [("error", str "Vehicle not found")])⟩) ∧
    vehiclesHandler sampleStore "car" "1"
        = ⟨200, none, Body.json (obj [("vehicle", dashboardOnlyCar)])⟩ :=
  ⟨(lookup_miss_is_404 enUS sampleStore "car" "2" null noRowError
      (by simp [sampleStore, tableName])).1 (Or.inl rfl),
   (lookup_miss_is_404 enUS sampleStore "car" "1" dashboardOnlyCar null
      (by simp [sampleStore, tableName])).2 ⟨rfl, rfl⟩⟩

/-! ### The image as a text -/

/-- C3, as stated, fails: the descriptor built for car `3`, whose `exterior` list
starts with the empty text, has the empty text as image. -/
theorem image_can_be_empty :
    metaHandler enUS sampleStore "car" "3"
      = ⟨200, none, Body.json (metaData enUS "car" "3" emptyEntryCar)⟩ ∧
    (metaData enUS "car" "3" emptyEntryCar).get "image" = str "" ∧
    isNonEmptyString ((metaData enUS "car" "3" emptyEntryCar).get "image") = false := by
  refine ⟨?_, ?_, ?_⟩
  · simp [metaHandler, tableName, sampleStore, truthy, emptyEntryCar]
  · rfl
  · rfl

/-- C3, amended: when the image selection picks a photo category (the first one in
the fixed order that holds a non-empty array), the descriptor's image is that
category's first entry, unchanged; when it picks none, the image is the
placeholder, a non-empty text.  So the image is a non-empty text except when the
first entry of the picked category is empty or not a text, and it then is that
entry. -/
theorem image_nonempty_unless_picked_entry_bad (rt : Runtime) (type id : String)
    (vehicle : JVal) :
    (∀ (pre post : List String) (c : String) (x : JVal) (xs : List JVal),
        categoryOrder = pre ++ c :: post →
        (∀ c' ∈ pre, ∀ y ys, (vehicle.get "photos").get c' ≠ arr (y :: ys)) →
        (vehicle.get "photos").get c = arr (x :: xs) →
        (metaData rt type id vehicle).get "image" = x ∧
        isNonEmptyString ((metaData rt type id vehicle).get "image") = isNonEmptyString x) ∧
    ((¬ ((vehicle.get "photos").truthy = true ∧ (vehicle.get "photos").isObjectType = true) ∨
        ∀ c ∈ categoryOrder, ∀ y ys, (vehicle.get "photos").get c ≠ arr (y :: ys)) →
        (metaData rt type id vehicle).get "image" = str placeholderImage ∧
        isNonEmptyString ((metaData rt type id vehicle).get "image") = true) ∧
    (isNonEmptyString ((metaData rt type id vehicle).get "image") = true ∨
      ∃ (pre post : List String) (c : String) (x : JVal) (xs : List JVal),
        categoryOrder = pre ++ c :: post ∧
        (∀ c' ∈ pre, ∀ y ys, (vehicle.get "photos").get c' ≠ arr (y :: ys)) ∧
        (vehicle.get "photos").get c = arr (x :: xs) ∧
        (metaData rt type id vehicle).get "image" = x ∧ isNonEmptyString x = false) := by
  rw [metaData_image]
  have hp : isNonEmptyString (str placeholderImage) = true := by decide
  refine ⟨?_, ?_, ?_⟩
  · intro pre post c x xs hsplit hpre hc
    have := getMainImage_of_first vehicle pre post c x xs hsplit hpre hc
    exact ⟨this, by rw [this]⟩
  · intro h
    have := getMainImage_placeholder vehicle h
    exact ⟨this, by rw [this]; exact hp⟩
  · by_cases hu : (vehicle.get "photos").truthy = true ∧ (vehicle.get "photos").isObjectType = true
    · cases hf : firstPhoto (vehicle.get "photos") categoryOrder with
      | none =>
        left
        simp [getMainImage, hu.1, hu.2, hf, hp]
      | some x =>
        obtain ⟨pre, c, post, xs, hsplit, hpre, hx⟩ := firstPhoto_some_split _ _ _ hf
        have himg := getMainImage_of_first vehicle pre post c x xs hsplit hpre hx
        by_cases hn : isNonEmptyString x = true
        · left
          rw [himg]
          exact hn
        · right
          exact ⟨pre, post, c, x, xs, hsplit, hpre, hx, himg, Bool.eq_false_iff.mpr hn⟩
    · left
      rw [getMainImage_placeholder vehicle (Or.inl hu)]
      exact hp

/-- Witness for the amended C3: the car whose `exterior` list starts with the empty
text gets the empty text as image; the car whose only photos are in `dashboard`
gets a non-empty text; the bike without photos gets the placeholder. -/
theorem image_nonempty_unless_picked_entry_bad_witness :
    (metaData enUS "car" "3" emptyEntryCar).get "image" = str "" ∧
    isNonEmptyString ((metaData enUS "car" "1" dashboardOnlyCar).get "image") = true ∧
    (metaData enUS "bike" "7" plainBike).get "image" = str placeholderImage :=
  ⟨((image_nonempty_unless_picked_entry_bad enUS "car" "3" emptyEntryCar).1
      [] ["interior", "engine", "dashboard", "other"] "exterior" (str "") [] rfl
      (by intro c hc; cases hc) rfl).1,
   (((image_nonempty_unless_picked_entry_bad enUS "car" "1" dashboardOnlyCar).1
      ["exterior", "interior", "engine"] ["other"] "dashboard"
      (str "https://cdn.example/dash-1.jpg") [str "https://cdn.example/dash-2.jpg"] rfl
      (by
        intro c hc y ys
        simp only [List.mem_cons, List.mem_singleton, List.not_mem_nil, or_false] at hc
        rcases hc with rfl | rfl | rfl <;> simp [dashboardOnlyCar, JVal.get, lookupField])
      rfl).2).trans rfl,
   ((image_nonempty_unless_picked_entry_bad enUS "bike" "7" plainBike).2.1 (Or.inl (by
      simp [plainBike, JVal.get, lookupField, truthy]))).1⟩

/-! ### Title and description -/

/-- C5, as stated, fails: the car without `variant` gets a title with an empty
variant slot between two blanks, not the title with the variant left out. -/
theorem title_without_variant_keeps_slot :
    dashboardOnlyCar.get "variant" = undefined ∧
    title dashboardOnlyCar = "2020 Honda City  - VahaanXchange" ∧
    title dashboardOnlyCar ≠
      (dashboardOnlyCar.get "year").toStr ++ " " ++ (dashboardOnlyCar.get "brand").toStr ++ " "
        ++ (dashboardOnlyCar.get "model").toStr ++ " - VahaanXchange" :=
  ⟨rfl, by decide, by decide⟩

/-- C5, amended: with a variant that is a non-empty text the title is
`{year} {brand} {model} {variant} - VahaanXchange`; with an absent variant
(missing, `null` or empty) the variant slot is empty and its two blanks stay, so
the title is `{year} {brand} {model}  - VahaanXchange`. -/
theorem title_format (vehicle : JVal) :
    (∀ s, vehicle.get "variant" = str s → s ≠ "" →
        title vehicle = (vehicle.get "year").toStr ++ " " ++ (vehicle.get "brand").toStr ++ " "
          ++ (vehicle.get "model").toStr ++ " " ++ s ++ " - VahaanXchange") ∧
    ((vehicle.get "variant" = undefined ∨ vehicle.get "variant" = null ∨
        vehicle.get "variant" = str "") →
        title vehicle = (vehicle.get "year").toStr ++ " " ++ (vehicle.get "brand").toStr ++ " "
          ++ (vehicle.get "model").toStr ++ "  - VahaanXchange") := by
  constructor
  · intro s hs hne
    simp [title, hs, orElse, truthy, hne, toStr]
  · intro h
    have hv : (orElse (vehicle.get "variant") (str "")).toStr = "" := by
      rcases h with h | h | h <;> simp [h, orElse, truthy, toStr]
    have hb : " " ++ ("" ++ " - VahaanXchange") = "  - VahaanXchange" := by decide
    simp only [title, hv, String.append_assoc, hb]

/-- Witness for the amended C5: the bike with variant `V3`, and the car without
variant. -/
theorem title_format_witness :
    title plainBike = "2019 Yamaha FZ V3 - VahaanXchange" ∧
    title dashboardOnlyCar = "2020 Honda City  - VahaanXchange" :=
  ⟨(title_format plainBike).1 "V3" rfl (by decide),
   (title_format dashboardOnlyCar).2 (Or.inl rfl)⟩

theorem grouped_slot (fmt : ℚ → String) (dflt : String) (v : JVal)
    (hv : isOptNumber v = true) (hfmt : ∀ k, v = num k → fmt k ≠ "") :
    (orElse (optLocaleString fmt v) (str dflt)).toStr = specGrouped fmt dflt v := by
  cases v with
  | num n =>
    have := hfmt n rfl
    simp [optLocaleString, localeStr, orElse, truthy, toStr, specGrouped, this]
  | undefined => simp [optLocaleString, orElse, truthy, toStr, specGrouped]
  | null => simp [optLocaleString, orElse, truthy, toStr, specGrouped]
  | bool b => simp [isOptNumber] at hv
  | str s => simp [isOptNumber] at hv
  | arr xs => simp [isOptNumber] at hv
  | obj fs => simp [isOptNumber] at hv

theorem city_slot (v : JVal) (hv : isOptString v = true) :
    (orElse v (str "Available")).toStr = specCity v := by
  cases v with
  | str s =>
    by_cases hs : s = "" <;> simp [orElse, truthy, toStr, specCity, hs]
  | undefined => simp [orElse, truthy, toStr, specCity]
  | null => simp [orElse, truthy, toStr, specCity]
  | bool b => simp [isOptString] at hv
  | num n => simp [isOptString] at hv
  | arr xs => simp [isOptString] at hv
  | obj fs => simp [isOptString] at hv

theorem metaData_description (rt : Runtime) (type id : String) (vehicle : JVal) :
    (metaData rt type id vehicle).get "description" = str (description rt vehicle) := by
  simp [metaData, JVal.get, lookupField]

/-- C6: for a record whose kilometers and price are numbers (whole or fractional)
or absent and whose city is a text or absent, the description field of the
descriptor is `{fuelType} | {K} km | ₹{P} | {C}`, with K the grouped rendering of
the kilometers when present and `Low` when absent, P the grouped rendering of the
price when present and `Best Price` when absent, C the city when there is one and
`Available` otherwise; a number 0 is rendered, not replaced (the grouped
rendering of a number is never the empty text). -/
theorem description_format (rt : Runtime) (type id : String) (vehicle : JVal)
    (hkm : isOptNumber (vehicle.get "kilometers_driven") = true)
    (hprice : isOptNumber (vehicle.get "sell_price") = true)
    (hcity : isOptString (vehicle.get "seller_location_city") = true)
    (hK : ∀ k, vehicle.get "kilometers_driven" = num k → rt.numToLocale k ≠ "")
    (hP : ∀ p, vehicle.get "sell_price" = num p → rt.numToLocale p ≠ "") :
    (metaData rt type id vehicle).get "description" =
      str ((vehicle.get "fuel_type").toStr ++ " | "
        ++ specGrouped rt.numToLocale "Low" (vehicle.get "kilometers_driven") ++ " km | ₹"
        ++ specGrouped rt.numToLocale "Best Price" (vehicle.get "sell_price") ++ " | "
        ++ specCity (vehicle.get "seller_location_city")) := by
  rw [metaData_description]
  unfold description
  rw [grouped_slot _ _ _ hkm hK, grouped_slot _ _ _ hprice hP, city_slot _ hcity]

/-- Witness for C6: 0 kilometers and price 0 are rendered as `0`; the price 85000.5
is rendered with its fraction; an absent city gives `Available`. -/
theorem description_format_witness :
    (metaData enUS "car" "1" dashboardOnlyCar).get "description"
      = str "Petrol | 0 km | ₹0 | Pune" ∧
    (metaData enUS "bike" "7" plainBike).get "description"
      = str "Petrol | 12,500 km | ₹85,000.5 | Available" :=
  ⟨(description_format enUS "car" "1" dashboardOnlyCar rfl rfl rfl
      (by intro k hk; cases hk; decide) (by intro p hp; cases hp; decide)).trans
      (congrArg str (by decide)),
   (description_format enUS "bike" "7" plainBike rfl rfl rfl
      (by intro k hk; cases hk; decide) (by intro p hp; cases hp; decide)).trans
      (congrArg str (by decide))⟩

/-! ### The crawler page -/

theorem wire_metaData (rt : Runtime) (type id : String) (vehicle : JVal) :
    (wire (metaData rt type id vehicle)).truthy = true ∧
    (wire (metaData rt type id vehicle)).get "error" = undefined ∧
    (wire (metaData rt type id vehicle)).get "title" = str (title vehicle) ∧
    (wire (metaData rt type id vehicle)).get "url" = str (canonicalUrl rt type id) := by
  unfold metaData
  generalize getMainImage vehicle = img
  cases img <;> simp [wire, wireFields, JVal.get, lookupField, truthy]

theorem renderHtml_contains (m : JVal) :
    containsStr (renderHtml m) (ogTitleTag (m.get "title").toStr) ∧
    containsStr (renderHtml m) (refreshTag (m.get "url").toStr) := by
  constructor
  · refine ⟨(htmlHead (m.get "title").toStr (m.get "description").toStr (m.get "url").toStr).data,
      (htmlMiddle (m.get "title").toStr (m.get "description").toStr (m.get "url").toStr
          (m.get "image").toStr ++ refreshTag (m.get "url").toStr
        ++ htmlTail (m.get "title").toStr (m.get "description").toStr (m.get "url").toStr).data, ?_⟩
    simp only [renderHtml, String.data_append, List.append_assoc]
  · refine ⟨(htmlHead (m.get "title").toStr (m.get "description").toStr (m.get "url").toStr
          ++ ogTitleTag (m.get "title").toStr
          ++ htmlMiddle (m.get "title").toStr (m.get "description").toStr (m.get "url").toStr
              (m.get "image").toStr).data,
      (htmlTail (m.get "title").toStr (m.get "description").toStr (m.get "url").toStr).data, ?_⟩
    simp only [renderHtml, String.data_append, List.append_assoc]

/-- When the loopback request brings back the descriptor the meta route builds for
a record, the crawler route answers 200 with `Content-Type: text/html` and a page
that holds the `og:title` tag with the descriptor's title and the refresh tag with
the descriptor's url. -/
theorem ssr_page_of_fetched_descriptor (rt : Runtime) (net : Net)
    (protocol host type id mtype mid : String) (vehicle : JVal)
    (hnet : net (metaUrl protocol host type id) = some (wire (metaData rt mtype mid vehicle))) :
    ∃ html,
      ssrHandler net protocol host type id = ⟨200, some "text/html", Body.text html⟩ ∧
      containsStr html
        ("<meta property=\"og:title\" content=\"" ++ title vehicle ++ "\">") ∧
      containsStr html
        ("<meta http-equiv=\"refresh\" content=\"0; url=" ++ canonicalUrl rt mtype mid ++ "\">") := by
  obtain ⟨w1, w2, w3, w4⟩ := wire_metaData rt mtype mid vehicle
  refine ⟨renderHtml (wire (metaData rt mtype mid vehicle)), ?_, ?_, ?_⟩
  · have hu : JVal.undefined.truthy = false := rfl
    simp [ssrHandler, hnet, ssrRender, w1, w2, hu]
  · have := (renderHtml_contains (wire (metaData rt mtype mid vehicle))).1
    rw [w3] at this
    exact this
  · have := (renderHtml_contains (wire (metaData rt mtype mid vehicle))).2
    rw [w4] at this
    exact this

/-- When the loopback request brings back a payload with a truthy `error` field,
the crawler route answers 404 with the text `Vehicle not found`. -/
theorem ssr_of_fetched_error (net : Net) (protocol host type id : String) (m : JVal)
    (hnet : net (metaUrl protocol host type id) = some m)
    (herr : (m.get "error").truthy = true) :
    ssrHandler net protocol host type id = ⟨404, none, Body.text "Vehicle not found"⟩ := by
  simp [ssrHandler, hnet, ssrRender, herr]

/-! #### The loopback request for plain parameters -/

theorem stripLeading_append (p r : List Char) : stripLeading p (p ++ r) = some r := by
  induction p with
  | nil => cases r <;> rfl
  | cons c p ih => simp [stripLeading, ih]

theorem plainChar_not_special (c : Char) (h : plainChar c = true) :
    c ≠ '/' ∧ c ≠ '?' ∧ c ≠ '#' := by
  refine ⟨?_, ?_, ?_⟩ <;> (rintro rfl; revert h; decide)

theorem splitSlash_plain (l : List Char) (h : ∀ c ∈ l, plainChar c = true) :
    splitSlash l = [l] := by
  induction l with
  | nil => rfl
  | cons c l ih =>
    have hc := (plainChar_not_special c (h c (List.mem_cons_self _ _))).1
    have hl := ih (fun d hd => h d (List.mem_cons_of_mem _ hd))
    simp [splitSlash, hc, hl]

theorem splitSlash_two (t i : List Char) (ht : ∀ c ∈ t, plainChar c = true)
    (hi : ∀ c ∈ i, plainChar c = true) :
    splitSlash (t ++ '/' :: i) = [t, i] := by
  induction t with
  | nil => simp [splitSlash, splitSlash_plain i hi]
  | cons c t ih =>
    have hc := (plainChar_not_special c (ht c (List.mem_cons_self _ _))).1
    have hl := ih (fun d hd => ht d (List.mem_cons_of_mem _ hd))
    simp [splitSlash, hc, hl]

theorem pathPart_plain (t i : List Char) (ht : ∀ c ∈ t, plainChar c = true)
    (hi : ∀ c ∈ i, plainChar c = true) :
    pathPart (t ++ '/' :: i) = t ++ '/' :: i := by
  unfold pathPart
  rw [List.takeWhile_eq_self_iff]
  intro c hc
  rcases List.mem_append.mp hc with h | h
  · have := plainChar_not_special c (ht c h)
    simp [this.2.1, this.2.2]
  · rcases List.mem_cons.mp h with rfl | h
    · decide
    · have := plainChar_not_special c (hi c h)
      simp [this.2.1, this.2.2]

/-- For a type and an id made of plain characters, the loopback request of the
crawler route is answered by the meta route with the same type and id. -/
theorem loopbackNet_plain (rt : Runtime) (store : Store) (protocol host type id : String)
    (ht : ∀ c ∈ type.data, plainChar c = true) (hi : ∀ c ∈ id.data, plainChar c = true)
    (ht0 : type ≠ "") (hi0 : id ≠ "") :
    loopbackNet rt store (protocol ++ "://" ++ host) (metaUrl protocol host type id)
      = fetchedJson (metaHandler rt store type id) := by
  have hurl : (metaUrl protocol host type id).data
      = (protocol ++ "://" ++ host ++ "/api/meta/").data ++ (type.data ++ '/' :: id.data) := by
    simp [metaUrl, String.data_append, List.append_assoc]
  have ht1 : type.data ≠ [] := fun h => ht0 (String.ext h)
  have hi1 : id.data ≠ [] := fun h => hi0 (String.ext h)
  have hall : ([type.data, id.data].all fun seg => seg.all plainChar) = true := by
    simp only [List.all_cons, List.all_nil, Bool.and_true, Bool.and_eq_true, List.all_eq_true]
    exact ⟨ht, hi⟩
  unfold loopbackNet
  simp only [hurl, stripLeading_append]
  unfold metaRouteGet
  simp only [pathPart_plain _ _ ht hi, splitSlash_two _ _ ht hi, hall, if_true]
  simp [List.isEmpty_iff, ht1, hi1]

/-- C7: the claim fails on the code for an existing record whose id holds a `/`.
For the car with id `1/2` the meta route answers 200 with a descriptor without
error field, but the crawler route requests `/api/meta/car/1/2`, which no route
pattern takes, gets the catch-all payload and answers 404 `Vehicle not found`. -/
theorem ssr_misses_record_with_slash_in_id :
    metaHandler enUS sampleStore "car" "1/2"
      = ⟨200, none, Body.json (metaData enUS "car" "1/2" slashCar)⟩ ∧
    (metaData enUS "car" "1/2" slashCar).get "error" = undefined ∧
    metaUrl "http" "localhost:3001" "car" "1/2" = "http://localhost:3001/api/meta/car/1/2" ∧
    metaRouteGet enUS sampleStore "car/1/2" = some catchAll ∧
    ssrHandler (loopbackNet enUS sampleStore "http://localhost:3001")
        "http" "localhost:3001" "car" "1/2"
      = ⟨404, none, Body.text "Vehicle not found"⟩ := by
  refine ⟨?_, rfl, by decide, ?_, ?_⟩
  · simp [metaHandler, tableName, sampleStore, truthy, slashCar]
  · rfl
  · rfl

/-- C8: when the store client throws, the meta route answers 500 with
`{ error: 'Internal server error' }`, and the crawler route, which reads only the
`error` field of that answer, responds 404 `Vehicle not found` instead of 500. -/
theorem ssr_reports_store_failure_as_404 (rt : Runtime) (store : Store) (net : Net)
    (protocol host type id : String)
    (hs : store (tableName type) id = StoreOutcome.throws)
    (hnet : net (metaUrl protocol host type id) = fetchedJson (metaHandler rt store type id)) :
    metaHandler rt store type id
      = ⟨500, none, Body.json (obj [("error", str "Internal server error")])⟩ ∧
    vehiclesHandler store type id
      = ⟨500, none, Body.json (obj [("error", str "Internal server error")])⟩ ∧
    ssrHandler net protocol host type id = ⟨404, none, Body.text "Vehicle not found"⟩ := by
  have hm : metaHandler rt store type id
      = ⟨500, none, Body.json (obj [("error", str "Internal server error")])⟩ := by
    simp [metaHandler, hs, errorBody]
  refine ⟨hm, ?_, ?_⟩
  · simp [vehiclesHandler, hs, errorBody]
  · rw [hm] at hnet
    exact ssr_of_fetched_error net protocol host type id _ hnet rfl

/-- Witness for C8: the store whose client always throws, asked for car `1` over
the loopback network. -/
theorem ssr_reports_store_failure_as_404_witness :
    metaHandler enUS throwingStore "car" "1"
      = ⟨500, none, Body.json (obj [("error", str "Internal server error")])⟩ ∧
    vehiclesHandler throwingStore "car" "1"
      = ⟨500, none, Body.json (obj [("error", str "Internal server error")])⟩ ∧
    ssrHandler (loopbackNet enUS throwingStore "http://localhost:3001")
        "http" "localhost:3001" "car" "1"
      = ⟨404, none, Body.text "Vehicle not found"⟩ :=
  ssr_reports_store_failure_as_404 enUS throwingStore
    (loopbackNet enUS throwingStore "http://localhost:3001") "http" "localhost:3001" "car" "1"
    rfl (loopbackNet_plain enUS throwingStore "http" "localhost:3001" "car" "1"
      (by decide) (by decide) (by decide) (by decide))

/-- C9: the claim fails on the code for an id that holds a `?`.  The bike table has
no row with id `7?x` and the meta route answers 404 for it, but the crawler route
requests `/api/meta/bike/7?x`, where `x` is read as the query; the meta route is
run for the id `7`, and the crawler route answers 200 with the page of bike `7`. -/
theorem ssr_serves_other_record_for_query_in_id :
    sampleStore (tableName "bike") "7?x" = StoreOutcome.result null noRowError ∧
    metaHandler enUS sampleStore "bike" "7?x"
      = ⟨404, none, Body.json (obj [("error", str "Vehicle not found")])⟩ ∧
    metaUrl "http" "localhost:3001" "bike" "7?x" = "http://localhost:3001/api/meta/bike/7?x" ∧
    metaRouteGet enUS sampleStore "bike/7?x" = some (metaHandler enUS sampleStore "bike" "7") ∧
    ssrHandler (loopbackNet enUS sampleStore "http://localhost:3001")
        "http" "localhost:3001" "bike" "7?x"
      = ⟨200, some "text/html",
          Body.text (renderHtml (wire (metaData enUS "bike" "7" plainBike)))⟩ := by
  refine ⟨?_, ?_, by decide, ?_, ?_⟩
  · simp [sampleStore, tableName]
  · simp [metaHandler, tableName, sampleStore, truthy, errorBody]
  · rfl
  · rfl

/-- For a type and an id made of plain characters and no matching record, the
crawler route answers 404 with the text `Vehicle not found` over the loopback
network. -/
theorem ssr_missing_record_plain (rt : Runtime) (store : Store)
    (protocol host type id : String) (data error : JVal)
    (ht : ∀ c ∈ type.data, plainChar c = true) (hi : ∀ c ∈ id.data, plainChar c = true)
    (ht0 : type ≠ "") (hi0 : id ≠ "")
    (hs : store (tableName type) id = StoreOutcome.result data error)
    (hmiss : error.truthy = true ∨ data.truthy = false) :
    ssrHandler (loopbackNet rt store (protocol ++ "://" ++ host)) protocol host type id
      = ⟨404, none, Body.text "Vehicle not found"⟩ := by
  have hc : (error.truthy || !data.truthy) = true := by
    rcases hmiss with h1 | h1 <;> simp [h1]
  have hm : metaHandler rt store type id
      = ⟨404, none, Body.json (obj [("error", str "Vehicle not found")])⟩ := by
    simp [metaHandler, hs, hc, errorBody]
  have hnet := loopbackNet_plain rt store protocol host type id ht hi ht0 hi0
  rw [hm] at hnet
  exact ssr_of_fetched_error _ protocol host type id _ hnet rfl

/-- For a type and an id made of plain characters and a record the store returns
without error, the crawler route answers 200 with the page over the loopback
network. -/
theorem ssr_existing_record_plain (rt : Runtime) (store : Store)
    (protocol host type id : String) (vehicle error : JVal)
    (ht : ∀ c ∈ type.data, plainChar c = true) (hi : ∀ c ∈ id.data, plainChar c = true)
    (ht0 : type ≠ "") (hi0 : id ≠ "")
    (hs : store (tableName type) id = StoreOutcome.result vehicle error)
    (he : error.truthy = false) (hv : vehicle.truthy = true) :
    ∃ html,
      ssrHandler (loopbackNet rt store (protocol ++ "://" ++ host)) protocol host type id
        = ⟨200, some "text/html", Body.text html⟩ ∧
      containsStr html
        ("<meta property=\"og:title\" content=\"" ++ title vehicle ++ "\">") ∧
      containsStr html
        ("<meta http-equiv=\"refresh\" content=\"0; url=" ++ canonicalUrl rt type id ++ "\">") := by
  have hm : metaHandler rt store type id
      = ⟨200, none, Body.json (metaData rt type id vehicle)⟩ := by
    simp [metaHandler, hs, he, hv]
  have hnet := loopbackNet_plain rt store protocol host type id ht hi ht0 hi0
  rw [hm] at hnet
  exact ssr_page_of_fetched_descriptor rt _ protocol host type id type id vehicle hnet

/-! ### The final error stage -/

/-- C10: for every error and every value of `NODE_ENV` the final stage answers 500
with the payload `{ error: 'Internal server error', message }`; the message is
`Something went wrong` in a production deployment, and in every deployment other
than `development`; it is the message of the error only when `NODE_ENV` is
`development`, which is not production. -/
theorem errorMiddleware_payload (rt : Runtime) (error : JVal) :
    ∃ message,
      errorMiddleware rt error
        = ⟨500, none, Body.json (obj [("error", str "Internal server error"),
            ("message", message)])⟩ ∧
      (rt.NODE_ENV = some "production" → message = str "Something went wrong") ∧
      (rt.NODE_ENV ≠ some "development" → message = str "Something went wrong") ∧
      (rt.NODE_ENV = some "development" → message = error.get "message") := by
  by_cases h : rt.NODE_ENV = some "development"
  · refine ⟨error.get "message", ?_, ?_, ?_, ?_⟩
    · simp [errorMiddleware, h]
    · intro hp
      rw [h] at hp
      exact absurd hp (by decide)
    · intro hn
      exact absurd h hn
    · intro _
      rfl
  · refine ⟨str "Something went wrong", ?_, ?_, ?_, ?_⟩
    · simp [errorMiddleware, h]
    · intro _
      rfl
    · intro _
      rfl
    · intro hd
      exact absurd hd h

/-- Witness for C10: in production the message of the error `boom` is withheld. -/
theorem errorMiddleware_payload_witness :
    ∃ message,
      errorMiddleware ⟨none, some "production", groupEnUS⟩ (obj [("message", str "boom")])
        = ⟨500, none, Body.json (obj [("error", str "Internal server error"),
            ("message", message)])⟩ ∧
      message = str "Something went wrong" := by
  obtain ⟨message, h1, h2, _, _⟩ :=
    errorMiddleware_payload ⟨none, some "production", groupEnUS⟩ (obj [("message", str "boom")])
  exact ⟨message, h1, h2 rfl⟩

end Vahaan
